import Mathlib

/-!
Verification of the nct6795_led driver (leds-nct6795d.c, nct6795_led.c).

The hardware interaction is modelled as explicit state passing over a `Hw`
record: a register file indexed by logical device and register, the currently
selected logical device, a flag saying whether the exclusive I/O-region claim
would fail, and a trace of bus events.  The `superio_*` primitives and the
driver operations (`nct6795d_led_detect`, `nct6795d_led_setup`,
`nct6795d_led_commit`, `nct6795d_led_commit_color`, `nct6795d_led_resume`,
the probe loop of `nct6795d_led_init`, and the older `nct6795_led_detect`)
are translated function by function from the C sources.
-/

namespace Nct6795

/-- A bus event, recorded in program order.  `enter`/`exit` stand for the
unlock/lock sequences of `superio_enter`/`superio_exit` together with the
acquisition and release of the muxed I/O region; `select` is
`superio_select`; `readb`/`write` record register reads (`superio_inb`) and
register writes (`superio_outb`) with the register and the byte value. -/
inductive Event where
  | enter : Event
  | exit : Event
  | select : Nat → Event
  | readb : Nat → Nat → Event
  | write : Nat → Nat → Event
deriving DecidableEq

def Event.isEnter : Event → Bool
  | .enter => true
  | _ => false

def Event.isExit : Event → Bool
  | .exit => true
  | _ => false

def Event.isWrite : Event → Bool
  | .write _ _ => true
  | _ => false

/-- Hardware model: `regs ld reg` is the byte stored in register `reg` of
logical device `ld`; `ld` is the logical device last selected through
`superio_select`; `busy` says whether `request_muxed_region` fails; `trace`
is the list of bus events so far. -/
structure Hw where
  regs : Nat → Nat → Nat
  ld : Nat
  busy : Bool
  trace : List Event

/- Constants from the sources. -/

def SIO_REG_LDSEL : Nat := 0x07
def SIO_REG_DEVID : Nat := 0x20
def EBUSY : Int := 16
def ENXIO : Int := 6
def DEFAULT_STEP_DURATION : Nat := 25
def NCT6795D_RGB_BANK : Nat := 0x12
def NCT6795D_RED_CELL : Nat := 0xf0
def NCT6795D_GREEN_CELL : Nat := 0xf4
def NCT6795D_BLUE_CELL : Nat := 0xf8
def NCT6795D_PARAMS_0 : Nat := 0xe4
def NCT6795D_PARAMS_1 : Nat := 0xfe
def NCT6795D_PARAMS_2 : Nat := 0xff

def PARAMS_0_LED_ENABLE (e : Bool) : Nat := if e then 0x0 else 0x1
def PARAMS_0_LED_PULSE_ENABLE (e : Bool) : Nat := if e then 0x08 else 0x0
def PARAMS_0_BLINK_DURATION (x : Nat) : Nat := x &&& 0x07
def PARAMS_1_STEP_DURATION_LOW (s : Nat) : Nat := s &&& 0xff
def PARAMS_2_FADE_COLOR (r g b : Bool) : Nat :=
  0xe0 ^^^ ((if r then 0x80 else 0x0) ||| (if g then 0x40 else 0x0) ||| (if b then 0x20 else 0x0))
def PARAMS_2_INVERT_COLOR (r g b : Bool) : Nat :=
  (if r then 0x10 else 0x0) ||| (if g then 0x08 else 0x0) ||| (if b then 0x04 else 0x0)
def PARAMS_2_DISABLE_BOARD_LED : Nat := 0x02
def PARAMS_2_STEP_DURATION_HIGH (s : Nat) : Nat := (s >>> 8) &&& 0x01

def RED : Nat := 0
def GREEN : Nat := 1
def BLUE : Nat := 2

/-- Structure `nct6795d_led`, reduced to the per-channel brightness values of
its `subled` array (`subled i` is `subled[i].brightness`). -/
structure nct6795d_led where
  subled : Nat → Nat

/- The superio primitives.  `outb` transmits the low byte of its argument and
`inb` returns a byte, hence the `% 256` truncations. -/

def superio_outb (s : Hw) (reg val : Nat) : Hw :=
  { s with
    regs := fun l r => if l = s.ld ∧ r = reg then val % 256 else s.regs l r,
    trace := s.trace ++ [Event.write reg (val % 256)] }

def superio_inb (s : Hw) (reg : Nat) : Nat × Hw :=
  (s.regs s.ld reg % 256,
   { s with trace := s.trace ++ [Event.readb reg (s.regs s.ld reg % 256)] })

def superio_select (s : Hw) (l : Nat) : Hw :=
  { s with ld := l, trace := s.trace ++ [Event.select l] }

def superio_enter (s : Hw) : Int × Hw :=
  if s.busy then (-EBUSY, s)
  else (0, { s with trace := s.trace ++ [Event.enter] })

def superio_exit (s : Hw) : Hw :=
  { s with trace := s.trace ++ [Event.exit] }

/-- Function `nct6795d_led_detect` from leds-nct6795d.c: enter, read the two device-ID
bytes (high byte from `SIO_REG_DEVID`, then low byte from the next register),
classify `val & 0xfff0`, exit.  This models the computation of the function's
internal `int ret` local, which does hold `-EBUSY`/`-ENXIO` on the error
paths.  The function's declared return type, however, is
`enum nct679x_chip`; the value a caller receives after the conversion at the
`return` is `nct6795d_led_detect_enum` below. -/
def nct6795d_led_detect (s0 : Hw) : Int × Hw :=
  let (ret, s1) := superio_enter s0
  if ret ≠ 0 then (ret, s1)
  else
    let (hi, s2) := superio_inb s1 SIO_REG_DEVID
    let (lo, s3) := superio_inb s2 (SIO_REG_DEVID + 1)
    let val := (hi <<< 8) ||| lo
    let ret : Int :=
      if val &&& 0xfff0 = 0xd350 then 0
      else if val &&& 0xfff0 = 0xd450 then 1
      else - ENXIO
    (ret, superio_exit s3)

/-- Conversion of the internal `int ret` to the declared return type
`enum nct679x_chip`.  Every enumerator of that enum (`NCT6795D = 0`,
`NCT6797D = 1`) is nonnegative, so under GCC/Clang the enum is compatible
with `unsigned int`, and converting an `int` to it wraps negative values
modulo 2^32. -/
def enum_nct679x_of_int (r : Int) : Nat := (r % 4294967296).toNat

/-- The value `nct6795d_led_detect` actually hands to its caller: the
internal `int` result converted to the unsigned `enum nct679x_chip`. -/
def nct6795d_led_detect_enum (s : Hw) : Nat :=
  enum_nct679x_of_int (nct6795d_led_detect s).1

/-- Function `nct6795d_led_setup` from leds-nct6795d.c. -/
def nct6795d_led_setup (s0 : Hw) : Int × Hw :=
  let (ret, s1) := superio_enter s0
  if ret ≠ 0 then (ret, s1)
  else
    let s2 := superio_select s1 0x09
    let (v1, s3) := superio_inb s2 0x2c
    let s4 := if v1 &&& 0x10 ≠ 0x10 then superio_outb s3 0x2c (v1 ||| 0x10) else s3
    let s5 := superio_select s4 NCT6795D_RGB_BANK
    let (v2, s6) := superio_inb s5 0xe0
    let s7 := if v2 &&& 0xe0 ≠ 0xe0 then superio_outb s6 0xe0 (v2 ||| 0xe0) else s6
    let s8 := superio_outb s7 NCT6795D_PARAMS_0
      (PARAMS_0_LED_ENABLE true ||| PARAMS_0_LED_PULSE_ENABLE false ||| PARAMS_0_BLINK_DURATION 0)
    let s9 := superio_outb s8 NCT6795D_PARAMS_1 (PARAMS_1_STEP_DURATION_LOW DEFAULT_STEP_DURATION)
    let s10 := superio_outb s9 NCT6795D_PARAMS_2
      (PARAMS_2_FADE_COLOR false false false ||| PARAMS_2_INVERT_COLOR false false false |||
        PARAMS_2_DISABLE_BOARD_LED ||| PARAMS_2_STEP_DURATION_HIGH DEFAULT_STEP_DURATION)
    (0, superio_exit s10)

/-- Function `nct6795d_led_commit_color`: encode the brightness as one byte
`(brightness << 4) | brightness` (truncated to `u8`) and write it to the four
consecutive registers starting at `color_cell`. -/
def nct6795d_led_commit_color (s : Hw) (color_cell brightness : Nat) : Hw :=
  let b := ((brightness <<< 4) ||| brightness) % 256
  let s0 := superio_outb s (color_cell + 0) b
  let s1 := superio_outb s0 (color_cell + 1) b
  let s2 := superio_outb s1 (color_cell + 2) b
  superio_outb s2 (color_cell + 3) b

/-- Function `nct6795d_led_commit`: enter, select the RGB bank, write all three
channels, exit. -/
def nct6795d_led_commit (led : nct6795d_led) (s0 : Hw) : Int × Hw :=
  let (ret, s1) := superio_enter s0
  if ret ≠ 0 then (ret, s1)
  else
    let s2 := superio_select s1 NCT6795D_RGB_BANK
    let s3 := nct6795d_led_commit_color s2 NCT6795D_RED_CELL (led.subled RED)
    let s4 := nct6795d_led_commit_color s3 NCT6795D_GREEN_CELL (led.subled GREEN)
    let s5 := nct6795d_led_commit_color s4 NCT6795D_BLUE_CELL (led.subled BLUE)
    (0, superio_exit s5)

/-- Function `nct6795d_led_resume`: run `setup`; on failure return the error, else run
`commit`. -/
def nct6795d_led_resume (led : nct6795d_led) (s0 : Hw) : Int × Hw :=
  let r := nct6795d_led_setup s0
  if r.1 ≠ 0 then r
  else nct6795d_led_commit led r.2

/-- The bound `led->mc_cdev.led_cdev.max_brightness = 0xf` set in
`nct6795d_led_probe`. -/
def led_cdev_max_brightness : Nat := 0xf

/-- The candidate base ports probed by `nct6795d_led_init`. -/
def io_bases : List Nat := [0x4e, 0x2e]

/-- The probe loop of `nct6795d_led_init`.  `detected_chip` has the unsigned
type `enum nct679x_chip`, so the loop's `detected_chip >= 0` test compares an
unsigned value with 0; the `[]` case is the exhausted-list branch in which
init returns `-ENXIO` (modelled as `none`).  `hw p` is the hardware reachable
at base port `p`.  The result is the list of ports actually probed and, when
the loop broke, the pair of the port it stopped at and the unsigned
`detected_chip` value. -/
def detect_loop (hw : Nat → Hw) : List Nat → List Nat × Option (Nat × Nat)
  | [] => ([], none)
  | p :: rest =>
    let detected_chip := nct6795d_led_detect_enum (hw p)
    if 0 ≤ detected_chip then ([p], some (p, detected_chip))
    else
      let pr := detect_loop hw rest
      (p :: pr.1, pr.2)

def nct6795d_led_init (hw : Nat → Hw) : List Nat × Option (Nat × Nat) :=
  detect_loop hw io_bases

/-- Function `nct6795_led_detect` from the older nct6795_led.c: mask `0xfff8`, a single
chip model, and an RGB-enable read-modify-write inside detection.  Note the C
source writes `0xe0 | (val & !0xe0)` where `!` is logical negation, so the
second operand is `val & 0`. -/
def nct6795_led_detect (s0 : Hw) : Int × Hw :=
  let (err, s1) := superio_enter s0
  if err ≠ 0 then (err, s1)
  else
    let (hi, s2) := superio_inb s1 SIO_REG_DEVID
    let (lo, s3) := superio_inb s2 (SIO_REG_DEVID + 1)
    let val := (hi <<< 8) ||| lo
    if val &&& 0xfff8 ≠ 0xd350 then (- ENXIO, superio_exit s3)
    else
      let (v, s4) := superio_inb s3 0xe0
      let s5 := if v &&& 0xe0 ≠ 0xe0 then superio_outb s4 0xe0 (0xe0 ||| (v &&& 0)) else s4
      (0, superio_exit s5)

/- Statement-side helpers: event sublists produced by the operations, and a
few sample states. -/

/-- The events appended to the trace by one run of an operation started in
state `s`. -/
def opDelta (f : Hw → Int × Hw) (s : Hw) : List Event :=
  ((f s).2.trace).drop s.trace.length

/-- The four writes `nct6795d_led_commit_color` performs for one channel. -/
def colorWrites (cell v : Nat) : List Event :=
  [Event.write (cell + 0) (((v <<< 4) ||| v) % 256),
   Event.write (cell + 1) (((v <<< 4) ||| v) % 256),
   Event.write (cell + 2) (((v <<< 4) ||| v) % 256),
   Event.write (cell + 3) (((v <<< 4) ||| v) % 256)]

/-- The events of one successful `nct6795d_led_setup` run from state `s`. -/
def setupEvents (s : Hw) : List Event :=
  let v1 := s.regs 0x09 0x2c % 256
  let v2 := s.regs NCT6795D_RGB_BANK 0xe0 % 256
  [Event.enter, Event.select 0x09, Event.readb 0x2c v1] ++
  (if v1 &&& 0x10 ≠ 0x10 then [Event.write 0x2c ((v1 ||| 0x10) % 256)] else []) ++
  [Event.select NCT6795D_RGB_BANK, Event.readb 0xe0 v2] ++
  (if v2 &&& 0xe0 ≠ 0xe0 then [Event.write 0xe0 ((v2 ||| 0xe0) % 256)] else []) ++
  [Event.write NCT6795D_PARAMS_0 0x00, Event.write NCT6795D_PARAMS_1 0x19,
   Event.write NCT6795D_PARAMS_2 0xe2, Event.exit]

/-- The events of one successful `nct6795d_led_commit` run. -/
def commitEvents (led : nct6795d_led) : List Event :=
  [Event.enter, Event.select NCT6795D_RGB_BANK] ++
  colorWrites NCT6795D_RED_CELL (led.subled RED) ++
  colorWrites NCT6795D_GREEN_CELL (led.subled GREEN) ++
  colorWrites NCT6795D_BLUE_CELL (led.subled BLUE) ++
  [Event.exit]

/-- The events of one successful `nct6795d_led_detect` run. -/
def detectEvents (s : Hw) : List Event :=
  [Event.enter, Event.readb SIO_REG_DEVID (s.regs s.ld SIO_REG_DEVID % 256),
   Event.readb (SIO_REG_DEVID + 1) (s.regs s.ld (SIO_REG_DEVID + 1) % 256), Event.exit]

/-- The classification switch of `nct6795d_led_detect`, as a function of the
assembled 16-bit device ID. -/
def classify (val : Nat) : Int :=
  if val &&& 0xfff0 = 0xd350 then 0
  else if val &&& 0xfff0 = 0xd450 then 1
  else - ENXIO

/-- The device ID `detect` assembles: high byte read from `SIO_REG_DEVID`,
low byte from the next register, combined big-endian. -/
def devid (s : Hw) : Nat :=
  (s.regs s.ld SIO_REG_DEVID % 256) <<< 8 ||| (s.regs s.ld (SIO_REG_DEVID + 1) % 256)

/-- A well-bracketed bus session: exactly one `enter` and one `exit`, the
`enter` first and the `exit` last. -/
def sessionShape (l : List Event) : Prop :=
  l.countP Event.isEnter = 1 ∧ l.countP Event.isExit = 1 ∧
  l.head? = some Event.enter ∧ l.getLast? = some Event.exit

/-- Both RMW target-bit sets of `nct6795d_led_setup` are already set. -/
def Configured (s : Hw) : Prop :=
  s.regs 0x09 0x2c % 256 &&& 0x10 = 0x10 ∧
  s.regs NCT6795D_RGB_BANK 0xe0 % 256 &&& 0xe0 = 0xe0

/-- Every register reads as zero, device 0 selected, bus free, empty trace. -/
def hw0 : Hw := { regs := fun _ _ => 0, ld := 0, busy := false, trace := [] }

/-- Like `hw0` but the exclusive region claim fails. -/
def hwBusy : Hw := { hw0 with busy := true }

/-- A chip whose two device-ID registers hold the 16-bit value `id`
(big-endian). -/
def hwWithId (id : Nat) : Hw :=
  { regs := fun _ r =>
      if r = SIO_REG_DEVID then id >>> 8
      else if r = SIO_REG_DEVID + 1 then id &&& 0xff
      else 0,
    ld := 0, busy := false, trace := [] }

/-- A chip on which both RMW target-bit sets of `setup` are already set. -/
def hwReady : Hw :=
  { regs := fun l r =>
      if l = 0x09 ∧ r = 0x2c then 0x10
      else if l = NCT6795D_RGB_BANK ∧ r = 0xe0 then 0xe0
      else 0,
    ld := 0, busy := false, trace := [] }

/-- All channels at brightness 0. -/
def led0 : nct6795d_led := ⟨fun _ => 0⟩

/-- Red at brightness 10, green and blue at 0 (the spec's scenario of a
commit that only changes the red channel). -/
def ledR10 : nct6795d_led := ⟨fun i => if i = RED then 10 else 0⟩

/-! ## Arithmetic helper lemmas -/

set_option maxRecDepth 10000

/-- Reassembling a 16-bit value from its high byte and its low byte. -/
theorem byte_recompose (id : Nat) : ((id >>> 8) <<< 8) ||| (id &&& 0xff) = id := by
  apply Nat.eq_of_testBit_eq
  intro j
  have h255 : Nat.testBit 255 j = decide (j < 8) := by
    rw [show (255 : Nat) = 2 ^ 8 - 1 by norm_num, Nat.testBit_two_pow_sub_one]
  rcases Nat.lt_or_ge j 8 with hj | hj
  · simp [Nat.testBit_shiftLeft, h255, Nat.not_le.mpr hj, hj]
  · have h8 : 8 + (j - 8) = j := by omega
    simp [Nat.testBit_shiftLeft, Nat.testBit_shiftRight, h255, h8, hj, Nat.not_lt.mpr hj]

/-- A 16-bit value splits into its bits above and below the low nibble. -/
theorem split_fff0 (id : Nat) (h : id < 65536) : (id &&& 0xfff0) ||| (id &&& 0xf) = id := by
  rw [← Nat.and_or_distrib_left]
  have h1 : (0xfff0 : Nat) ||| 0xf = 65535 := by decide
  rw [h1, show (65535 : Nat) = 2 ^ 16 - 1 by norm_num, Nat.and_pow_two_sub_one_eq_mod,
    Nat.mod_eq_of_lt h]

/-- A 16-bit value splits at bit 3 for the `0xfff8` mask. -/
theorem split_fff8 (id : Nat) (h : id < 65536) : (id &&& 0xfff8) ||| (id &&& 0x7) = id := by
  rw [← Nat.and_or_distrib_left]
  have h1 : (0xfff8 : Nat) ||| 0x7 = 65535 := by decide
  rw [h1, show (65535 : Nat) = 2 ^ 16 - 1 by norm_num, Nat.and_pow_two_sub_one_eq_mod,
    Nat.mod_eq_of_lt h]

theorem ball_d350 : ∀ y < 16, 0xd350 ≤ (0xd350 ||| y) ∧ (0xd350 ||| y) ≤ 0xd35f := by decide

theorem ball_d350_mask : ∀ k < 16, (0xd350 + k) &&& 0xfff0 = 0xd350 := by decide

theorem ball_d450 : ∀ y < 16, 0xd450 ≤ (0xd450 ||| y) ∧ (0xd450 ||| y) ≤ 0xd45f := by decide

theorem ball_d450_mask : ∀ k < 16, (0xd450 + k) &&& 0xfff0 = 0xd450 := by decide

theorem ball_d350w : ∀ y < 8, 0xd350 ≤ (0xd350 ||| y) ∧ (0xd350 ||| y) ≤ 0xd357 := by decide

theorem ball_d350w_mask : ∀ k < 8, (0xd350 + k) &&& 0xfff8 = 0xd350 := by decide

theorem nibble_lt (id : Nat) : id &&& 0xf < 16 := by
  rw [show (0xf : Nat) = 2 ^ 4 - 1 by norm_num, Nat.and_pow_two_sub_one_eq_mod]
  exact Nat.mod_lt _ (by norm_num)

theorem low3_lt (id : Nat) : id &&& 0x7 < 8 := by
  rw [show (0x7 : Nat) = 2 ^ 3 - 1 by norm_num, Nat.and_pow_two_sub_one_eq_mod]
  exact Nat.mod_lt _ (by norm_num)

/-- The `0xfff0`-masked comparison with `0xd350` is exactly the range test
`0xd350 ≤ id ≤ 0xd35f` on 16-bit values. -/
theorem mask_d350_iff (id : Nat) (h : id < 65536) :
    (id &&& 0xfff0 = 0xd350) ↔ (0xd350 ≤ id ∧ id ≤ 0xd35f) := by
  constructor
  · intro hm
    have hsplit := split_fff0 id h
    rw [hm] at hsplit
    have hb := ball_d350 _ (nibble_lt id)
    rw [hsplit] at hb
    exact hb
  · rintro ⟨h1, h2⟩
    have hk : id - 0xd350 < 16 := by omega
    have hid : 0xd350 + (id - 0xd350) = id := by omega
    rw [← hid]
    exact ball_d350_mask _ hk

/-- The `0xfff0`-masked comparison with `0xd450` is exactly the range test
`0xd450 ≤ id ≤ 0xd45f` on 16-bit values. -/
theorem mask_d450_iff (id : Nat) (h : id < 65536) :
    (id &&& 0xfff0 = 0xd450) ↔ (0xd450 ≤ id ∧ id ≤ 0xd45f) := by
  constructor
  · intro hm
    have hsplit := split_fff0 id h
    rw [hm] at hsplit
    have hb := ball_d450 _ (nibble_lt id)
    rw [hsplit] at hb
    exact hb
  · rintro ⟨h1, h2⟩
    have hk : id - 0xd450 < 16 := by omega
    have hid : 0xd450 + (id - 0xd450) = id := by omega
    rw [← hid]
    exact ball_d450_mask _ hk

/-- The `0xfff8`-masked comparison with `0xd350` is exactly the range test
`0xd350 ≤ id ≤ 0xd357` on 16-bit values. -/
theorem mask_d350w_iff (id : Nat) (h : id < 65536) :
    (id &&& 0xfff8 = 0xd350) ↔ (0xd350 ≤ id ∧ id ≤ 0xd357) := by
  constructor
  · intro hm
    have hsplit := split_fff8 id h
    rw [hm] at hsplit
    have hb := ball_d350w _ (low3_lt id)
    rw [hsplit] at hb
    exact hb
  · rintro ⟨h1, h2⟩
    have hk : id - 0xd350 < 8 := by omega
    have hid : 0xd350 + (id - 0xd350) = id := by omega
    rw [← hid]
    exact ball_d350w_mask _ hk

/-- Facts about the two read-modify-write updates of `setup`, for byte
values. -/
theorem ball_rmw : ∀ x < 256,
    (((x ||| 16) % 256) % 256 &&& 16 = 16) ∧ (((x ||| 16) % 256) % 256 &&& x = x) ∧
    (((x ||| 224) % 256) % 256 &&& 224 = 224) ∧ (((x ||| 224) % 256) % 256 &&& x = x) := by
  decide

/-- The encoded brightness byte for an in-range value: no truncation, and
both nibbles equal the value. -/
theorem ball_encode : ∀ v < 16,
    (((v <<< 4) ||| v) % 256 = (v <<< 4) ||| v) ∧ ((v <<< 4) ||| v) / 16 = v ∧
    ((v <<< 4) ||| v) % 16 = v := by
  decide

/-! ## Execution lemmas for the driver operations -/

/-- Function `detect` on a free bus records exactly an enter, the two ID reads (high
byte first), and an exit. -/
theorem detect_trace (s : Hw) (hb : s.busy = false) :
    (nct6795d_led_detect s).2.trace = s.trace ++ detectEvents s := by
  simp [nct6795d_led_detect, superio_enter, superio_inb, superio_exit, hb, detectEvents,
    SIO_REG_DEVID]

/-- The value `detect` returns on a free bus is the classification of the
big-endian assembled device ID. -/
theorem detect_fst (s : Hw) (hb : s.busy = false) :
    (nct6795d_led_detect s).1 = classify (devid s) := by
  simp [nct6795d_led_detect, superio_enter, superio_inb, superio_exit, hb, classify, devid,
    SIO_REG_DEVID]

theorem detect_busy_eq (s : Hw) (hb : s.busy = true) : nct6795d_led_detect s = (-EBUSY, s) := by
  simp [nct6795d_led_detect, superio_enter, hb, EBUSY]

theorem setup_trace (s : Hw) (hb : s.busy = false) :
    (nct6795d_led_setup s).2.trace = s.trace ++ setupEvents s := by
  have h25 : (25 : Nat) &&& 255 = 25 := by decide
  by_cases h1 : s.regs 0x09 0x2c % 256 &&& 0x10 = 0x10 <;>
  by_cases h2 : s.regs 0x12 0xe0 % 256 &&& 0xe0 = 0xe0 <;>
  simp [nct6795d_led_setup, superio_enter, superio_inb, superio_exit, superio_outb,
    superio_select, hb, setupEvents, h1, h2, h25, NCT6795D_RGB_BANK, NCT6795D_PARAMS_0,
    NCT6795D_PARAMS_1, NCT6795D_PARAMS_2, PARAMS_0_LED_ENABLE, PARAMS_0_LED_PULSE_ENABLE,
    PARAMS_0_BLINK_DURATION, PARAMS_1_STEP_DURATION_LOW, PARAMS_2_FADE_COLOR,
    PARAMS_2_INVERT_COLOR, PARAMS_2_DISABLE_BOARD_LED, PARAMS_2_STEP_DURATION_HIGH,
    DEFAULT_STEP_DURATION]

theorem setup_fst (s : Hw) (hb : s.busy = false) : (nct6795d_led_setup s).1 = 0 := by
  simp [nct6795d_led_setup, superio_enter, hb]

theorem setup_busy_inv (s : Hw) : (nct6795d_led_setup s).2.busy = s.busy := by
  by_cases hb : s.busy <;>
  simp [nct6795d_led_setup, superio_enter, superio_inb, superio_exit, superio_outb,
    superio_select, hb, EBUSY, apply_ite Hw.busy]

theorem setup_busy_eq (s : Hw) (hb : s.busy = true) : nct6795d_led_setup s = (-EBUSY, s) := by
  simp [nct6795d_led_setup, superio_enter, hb, EBUSY]

theorem commit_trace (led : nct6795d_led) (s : Hw) (hb : s.busy = false) :
    (nct6795d_led_commit led s).2.trace = s.trace ++ commitEvents led := by
  simp [nct6795d_led_commit, nct6795d_led_commit_color, superio_enter, superio_inb,
    superio_exit, superio_outb, superio_select, hb, commitEvents, colorWrites,
    NCT6795D_RGB_BANK, NCT6795D_RED_CELL, NCT6795D_GREEN_CELL, NCT6795D_BLUE_CELL,
    Nat.mod_mod_of_dvd]

theorem commit_fst (led : nct6795d_led) (s : Hw) (hb : s.busy = false) :
    (nct6795d_led_commit led s).1 = 0 := by
  simp [nct6795d_led_commit, superio_enter, hb]

theorem commit_busy_eq (led : nct6795d_led) (s : Hw) (hb : s.busy = true) :
    nct6795d_led_commit led s = (-EBUSY, s) := by
  simp [nct6795d_led_commit, superio_enter, hb, EBUSY]

theorem setup_regs_2c (s : Hw) (hb : s.busy = false) :
    (nct6795d_led_setup s).2.regs 0x09 0x2c =
      (if s.regs 0x09 0x2c % 256 &&& 0x10 = 0x10 then s.regs 0x09 0x2c
       else (s.regs 0x09 0x2c % 256 ||| 0x10) % 256) := by
  by_cases h1 : s.regs 0x09 0x2c % 256 &&& 0x10 = 0x10 <;>
  by_cases h2 : s.regs 0x12 0xe0 % 256 &&& 0xe0 = 0xe0 <;>
  simp [nct6795d_led_setup, superio_enter, superio_inb, superio_exit, superio_outb,
    superio_select, hb, h1, h2, NCT6795D_RGB_BANK, NCT6795D_PARAMS_0, NCT6795D_PARAMS_1,
    NCT6795D_PARAMS_2]

theorem setup_regs_e0 (s : Hw) (hb : s.busy = false) :
    (nct6795d_led_setup s).2.regs NCT6795D_RGB_BANK 0xe0 =
      (if s.regs NCT6795D_RGB_BANK 0xe0 % 256 &&& 0xe0 = 0xe0 then s.regs NCT6795D_RGB_BANK 0xe0
       else (s.regs NCT6795D_RGB_BANK 0xe0 % 256 ||| 0xe0) % 256) := by
  by_cases h1 : s.regs 0x09 0x2c % 256 &&& 0x10 = 0x10 <;>
  by_cases h2 : s.regs 0x12 0xe0 % 256 &&& 0xe0 = 0xe0 <;>
  simp [nct6795d_led_setup, superio_enter, superio_inb, superio_exit, superio_outb,
    superio_select, hb, h1, h2, NCT6795D_RGB_BANK, NCT6795D_PARAMS_0, NCT6795D_PARAMS_1,
    NCT6795D_PARAMS_2]

theorem setup_writes_config (s : Hw) (hb : s.busy = false) (hcfg : Configured s) :
    (opDelta nct6795d_led_setup s).filter Event.isWrite =
      [Event.write NCT6795D_PARAMS_0 0x00, Event.write NCT6795D_PARAMS_1 0x19,
       Event.write NCT6795D_PARAMS_2 0xe2] := by
  unfold opDelta
  rw [setup_trace s hb, List.drop_left]
  simp [setupEvents, hcfg.1, hcfg.2, Event.isWrite, NCT6795D_PARAMS_0, NCT6795D_PARAMS_1,
    NCT6795D_PARAMS_2]

/-- An operation that returns its input state unchanged appends no events. -/
theorem opDelta_of_fix (f : Hw → Int × Hw) (s : Hw) (r : Int) (h : f s = (r, s)) :
    opDelta f s = [] := by
  unfold opDelta
  rw [h]
  exact List.drop_length _

theorem detect_delta (s : Hw) (hb : s.busy = false) :
    opDelta nct6795d_led_detect s = detectEvents s := by
  unfold opDelta
  rw [detect_trace s hb, List.drop_left]

theorem setup_delta (s : Hw) (hb : s.busy = false) :
    opDelta nct6795d_led_setup s = setupEvents s := by
  unfold opDelta
  rw [setup_trace s hb, List.drop_left]

theorem commit_delta (led : nct6795d_led) (s : Hw) (hb : s.busy = false) :
    opDelta (nct6795d_led_commit led) s = commitEvents led := by
  unfold opDelta
  rw [commit_trace led s hb, List.drop_left]

theorem detect_shape (s : Hw) (hb : s.busy = false) :
    sessionShape (opDelta nct6795d_led_detect s) := by
  rw [detect_delta s hb]
  refine ⟨?_, ?_, ?_, ?_⟩ <;>
  simp [detectEvents, Event.isEnter, Event.isExit, List.countP_cons]

theorem setup_shape (s : Hw) (hb : s.busy = false) :
    sessionShape (opDelta nct6795d_led_setup s) := by
  rw [setup_delta s hb]
  by_cases h1 : s.regs 0x09 0x2c % 256 &&& 0x10 = 0x10 <;>
  by_cases h2 : s.regs NCT6795D_RGB_BANK 0xe0 % 256 &&& 0xe0 = 0xe0 <;>
  refine ⟨?_, ?_, ?_, ?_⟩ <;>
  simp [setupEvents, h1, h2, Event.isEnter, Event.isExit, List.countP_cons,
    List.countP_append]

theorem commit_shape (led : nct6795d_led) (s : Hw) (hb : s.busy = false) :
    sessionShape (opDelta (nct6795d_led_commit led) s) := by
  rw [commit_delta led s hb]
  refine ⟨?_, ?_, ?_, ?_⟩ <;>
  simp [commitEvents, colorWrites, Event.isEnter, Event.isExit, List.countP_cons,
    List.countP_append]

theorem setupEvents_enter_count (s : Hw) :
    (setupEvents s).countP Event.isEnter = 1 ∧ (setupEvents s).countP Event.isExit = 1 := by
  by_cases h1 : s.regs 0x09 0x2c % 256 &&& 0x10 = 0x10 <;>
  by_cases h2 : s.regs NCT6795D_RGB_BANK 0xe0 % 256 &&& 0xe0 = 0xe0 <;>
  refine ⟨?_, ?_⟩ <;>
  simp [setupEvents, h1, h2, Event.isEnter, Event.isExit, List.countP_cons,
    List.countP_append]

theorem commitEvents_counts (led : nct6795d_led) :
    (commitEvents led).countP Event.isEnter = 1 ∧ (commitEvents led).countP Event.isExit = 1 ∧
    (commitEvents led).countP Event.isWrite = 12 := by
  refine ⟨?_, ?_, ?_⟩ <;>
  simp [commitEvents, colorWrites, Event.isEnter, Event.isExit, Event.isWrite,
    List.countP_cons, List.countP_append]

/-- On a free bus, `resume` is `setup` followed by `commit`, once each. -/
theorem resume_eq (led : nct6795d_led) (s : Hw) (hb : s.busy = false) :
    nct6795d_led_resume led s = nct6795d_led_commit led (nct6795d_led_setup s).2 := by
  simp [nct6795d_led_resume, setup_fst s hb]

theorem resume_delta (led : nct6795d_led) (s : Hw) (hb : s.busy = false) :
    opDelta (nct6795d_led_resume led) s = setupEvents s ++ commitEvents led := by
  have hb1 : (nct6795d_led_setup s).2.busy = false := by rw [setup_busy_inv, hb]
  unfold opDelta
  rw [resume_eq led s hb, commit_trace led _ hb1, setup_trace s hb, List.append_assoc,
    List.drop_left]

/-- The return value of the old driver's `detect` on a free bus. -/
theorem old_detect_fst (s : Hw) (hb : s.busy = false) :
    (nct6795_led_detect s).1 = (if devid s &&& 0xfff8 = 0xd350 then 0 else - ENXIO) := by
  by_cases hm : devid s &&& 0xfff8 = 0xd350 <;>
  simp [nct6795_led_detect, superio_enter, superio_inb, superio_exit, hb, devid,
    SIO_REG_DEVID] at hm ⊢ <;>
  simp [hm]

theorem old_detect_busy_eq (s : Hw) (hb : s.busy = true) :
    nct6795_led_detect s = (-EBUSY, s) := by
  simp [nct6795_led_detect, superio_enter, hb, EBUSY]

/-! ## Claim theorems -/

/-- Claim C1: for every brightness value `v` in [0,15], committing a channel
encodes `v` as the single byte `(v <<< 4) ||| v` — whose high and low nibbles
both equal `v` — and writes that same byte to all 4 consecutive registers at
the channel's base cell address. -/
theorem commit_color_encodes (s : Hw) (cell v : Nat) (hv : v ≤ 15) :
    (nct6795d_led_commit_color s cell v).trace =
      s.trace ++
        [Event.write (cell + 0) ((v <<< 4) ||| v), Event.write (cell + 1) ((v <<< 4) ||| v),
         Event.write (cell + 2) ((v <<< 4) ||| v), Event.write (cell + 3) ((v <<< 4) ||| v)] ∧
    ((v <<< 4) ||| v) / 16 = v ∧ ((v <<< 4) ||| v) % 16 = v := by
  obtain ⟨hm, hd, hr⟩ := ball_encode v (by omega)
  refine ⟨?_, hd, hr⟩
  simp [nct6795d_led_commit_color, superio_outb, hm]

/-- Witness for C1: brightness 10 on the red cell writes byte 0xaa four
times. -/
theorem commit_color_encodes_witness :
    (10 : Nat) ≤ 15 ∧
    ((nct6795d_led_commit_color hw0 NCT6795D_RED_CELL 10).trace =
      hw0.trace ++
        [Event.write (NCT6795D_RED_CELL + 0) ((10 <<< 4) ||| 10),
         Event.write (NCT6795D_RED_CELL + 1) ((10 <<< 4) ||| 10),
         Event.write (NCT6795D_RED_CELL + 2) ((10 <<< 4) ||| 10),
         Event.write (NCT6795D_RED_CELL + 3) ((10 <<< 4) ||| 10)] ∧
      ((10 <<< 4) ||| 10) / 16 = 10 ∧ ((10 <<< 4) ||| 10) % 16 = 10) :=
  ⟨by decide, commit_color_encodes hw0 NCT6795D_RED_CELL 10 (by decide)⟩

/-- Counterexample to claim C2: resume from a free bus opens exactly 2 bus
sessions (one `setup`, one `commit`) — not the 4 that invoking the
setup-then-commit pair twice would open. -/
theorem resume_counterexample :
    ¬ (nct6795d_led_resume led0 hw0).2.trace.countP Event.isEnter = 4 ∧
    (nct6795d_led_resume led0 hw0).2.trace.countP Event.isEnter = 2 := by
  decide

/-- Claim C2 (amended): the resume handler invokes the setup-then-commit pair
exactly once — `setup`, then (since `setup` on a free bus succeeds) `commit` —
opening exactly two bus sessions in total. -/
theorem resume_single_pass (led : nct6795d_led) (s : Hw) (hb : s.busy = false) :
    nct6795d_led_resume led s = nct6795d_led_commit led (nct6795d_led_setup s).2 ∧
    (opDelta (nct6795d_led_resume led) s).countP Event.isEnter = 2 ∧
    (opDelta (nct6795d_led_resume led) s).countP Event.isExit = 2 := by
  refine ⟨resume_eq led s hb, ?_, ?_⟩
  · rw [resume_delta led s hb, List.countP_append, (setupEvents_enter_count s).1,
      (commitEvents_counts led).1]
  · rw [resume_delta led s hb, List.countP_append, (setupEvents_enter_count s).2,
      (commitEvents_counts led).2.1]

/-- Witness for the amended C2 on a concrete free-bus state. -/
theorem resume_single_pass_witness :
    hw0.busy = false ∧
    nct6795d_led_resume led0 hw0 = nct6795d_led_commit led0 (nct6795d_led_setup hw0).2 ∧
    (opDelta (nct6795d_led_resume led0) hw0).countP Event.isEnter = 2 :=
  ⟨rfl, (resume_single_pass led0 hw0 rfl).1, (resume_single_pass led0 hw0 rfl).2.1⟩

/-- Counterexample to claim C3: a commit performed after changing only the red
channel (red 10, green 0, blue 0) still writes the green cell register 0xf4
and the blue cell register 0xf8 — there is no commit mask restricting the
write set. -/
theorem commit_mask_counterexample :
    Event.write 0xf4 0 ∈ (nct6795d_led_commit ledR10 hw0).2.trace ∧
    Event.write 0xf8 0 ∈ (nct6795d_led_commit ledR10 hw0).2.trace ∧
    Event.write 0xf0 0xaa ∈ (nct6795d_led_commit ledR10 hw0).2.trace := by
  decide

/-- Claim C3 (amended): `commit` takes no channel mask — every successful
commit writes all three channels' four cell registers (12 register writes),
whatever subset of brightness values changed. -/
theorem commit_writes_all (led : nct6795d_led) (s : Hw) (hb : s.busy = false) :
    (nct6795d_led_commit led s).1 = 0 ∧
    (nct6795d_led_commit led s).2.trace = s.trace ++ commitEvents led ∧
    (opDelta (nct6795d_led_commit led) s).countP Event.isWrite = 12 := by
  refine ⟨commit_fst led s hb, commit_trace led s hb, ?_⟩
  rw [commit_delta led s hb]
  exact (commitEvents_counts led).2.2

/-- Witness for the amended C3 with only the red channel set. -/
theorem commit_writes_all_witness :
    hw0.busy = false ∧ (nct6795d_led_commit ledR10 hw0).1 = 0 ∧
    (nct6795d_led_commit ledR10 hw0).2.trace = hw0.trace ++ commitEvents ledR10 ∧
    (opDelta (nct6795d_led_commit ledR10) hw0).countP Event.isWrite = 12 :=
  ⟨rfl, (commit_writes_all ledR10 hw0 rfl).1, (commit_writes_all ledR10 hw0 rfl).2.1,
   (commit_writes_all ledR10 hw0 rfl).2.2⟩

/-- Counterexample to claim C9: the out-of-range brightness 16 is not rejected
with any error — the commit path performs four register writes of the
truncated byte 0x10. -/
theorem overrange_counterexample :
    (nct6795d_led_commit_color hw0 NCT6795D_RED_CELL 16).trace =
      [Event.write 0xf0 0x10, Event.write 0xf1 0x10, Event.write 0xf2 0x10,
       Event.write 0xf3 0x10] ∧
    (nct6795d_led_commit_color hw0 NCT6795D_RED_CELL 16).trace.length ≠ 0 := by
  decide

/-- Claim C9 (amended): the commit path performs no brightness range check of
its own: for any value `v` it unconditionally writes the truncated byte
`((v <<< 4) ||| v) % 256` four times.  The only guard is the
`max_brightness = 0xf` bound the probe exports to the external LED framework,
which is expected to clamp requests before they reach the driver. -/
theorem commit_color_unchecked (s : Hw) (cell v : Nat) :
    (nct6795d_led_commit_color s cell v).trace = s.trace ++ colorWrites cell v ∧
    led_cdev_max_brightness = 0xf := by
  refine ⟨?_, rfl⟩
  simp [nct6795d_led_commit_color, superio_outb, colorWrites, Nat.mod_mod_of_dvd]

/-- Counterexample to claim C4: on a chip whose two RMW target-bit sets are
already set, `setup` still performs 3 register writes (the unconditional
parameter writes), not zero. -/
theorem setup_zero_writes_counterexample :
    Configured hwReady ∧
    ((opDelta nct6795d_led_setup hwReady).filter Event.isWrite).length = 3 ∧
    ((opDelta nct6795d_led_setup hwReady).filter Event.isWrite).length ≠ 0 := by
  unfold Configured
  decide

/-- Claim C4 (amended): `setup`'s two read-modify-write steps issue zero
writes when their target bits are already set and never clear bits already
present in those registers; however every `setup` run unconditionally writes
the three fixed parameter registers (0xe4, 0xfe, 0xff), so a repeat run
performs exactly those 3 writes rather than zero.  A first run establishes
the RMW target bits, which is why the second of two consecutive runs takes
the write-free RMW path. -/
theorem setup_rmw_idempotent (s : Hw) (hb : s.busy = false) :
    (Configured s →
      (opDelta nct6795d_led_setup s).filter Event.isWrite =
        [Event.write NCT6795D_PARAMS_0 0x00, Event.write NCT6795D_PARAMS_1 0x19,
         Event.write NCT6795D_PARAMS_2 0xe2]) ∧
    Configured (nct6795d_led_setup s).2 ∧
    ((nct6795d_led_setup s).2.regs 0x09 0x2c % 256) &&& (s.regs 0x09 0x2c % 256) =
      s.regs 0x09 0x2c % 256 ∧
    ((nct6795d_led_setup s).2.regs NCT6795D_RGB_BANK 0xe0 % 256) &&&
      (s.regs NCT6795D_RGB_BANK 0xe0 % 256) = s.regs NCT6795D_RGB_BANK 0xe0 % 256 := by
  have hx : s.regs 0x09 0x2c % 256 < 256 := Nat.mod_lt _ (by norm_num)
  have hy : s.regs NCT6795D_RGB_BANK 0xe0 % 256 < 256 := Nat.mod_lt _ (by norm_num)
  have bx := ball_rmw _ hx
  have bz := ball_rmw _ hy
  refine ⟨fun hcfg => setup_writes_config s hb hcfg, ⟨?_, ?_⟩, ?_, ?_⟩
  · rw [setup_regs_2c s hb]
    by_cases h1 : s.regs 0x09 0x2c % 256 &&& 0x10 = 0x10
    · rw [if_pos h1]; exact h1
    · rw [if_neg h1]; exact bx.1
  · rw [setup_regs_e0 s hb]
    by_cases h2 : s.regs NCT6795D_RGB_BANK 0xe0 % 256 &&& 0xe0 = 0xe0
    · rw [if_pos h2]; exact h2
    · rw [if_neg h2]; exact bz.2.2.1
  · rw [setup_regs_2c s hb]
    by_cases h1 : s.regs 0x09 0x2c % 256 &&& 0x10 = 0x10
    · rw [if_pos h1]; exact Nat.and_self _
    · rw [if_neg h1]; exact bx.2.1
  · rw [setup_regs_e0 s hb]
    by_cases h2 : s.regs NCT6795D_RGB_BANK 0xe0 % 256 &&& 0xe0 = 0xe0
    · rw [if_pos h2]; exact Nat.and_self _
    · rw [if_neg h2]; exact bz.2.2.2

/-- Witness for the amended C4 on a pre-configured chip. -/
theorem setup_rmw_idempotent_witness :
    hwReady.busy = false ∧ Configured hwReady ∧
    (opDelta nct6795d_led_setup hwReady).filter Event.isWrite =
      [Event.write NCT6795D_PARAMS_0 0x00, Event.write NCT6795D_PARAMS_1 0x19,
       Event.write NCT6795D_PARAMS_2 0xe2] ∧
    Configured (nct6795d_led_setup hwReady).2 :=
  ⟨rfl, by unfold Configured; decide,
   (setup_rmw_idempotent hwReady rfl).1 (by unfold Configured; decide),
   (setup_rmw_idempotent hwReady rfl).2.1⟩

/-- Counterexample to claim C5: the device ID 0xd358 lies outside both ranges
claimed (0xd350–0xd357 and 0xd450–0xd457), yet `detect` classifies it as
variant A (return value 0), not as DeviceNotFound. -/
theorem detect_range_counterexample :
    (nct6795d_led_detect (hwWithId 0xd358)).1 = 0 ∧
    ((0xd358 : Nat) < 0xd350 ∨ 0xd357 < (0xd358 : Nat)) ∧
    ((0xd358 : Nat) < 0xd450 ∨ 0xd457 < (0xd358 : Nat)) ∧
    (0 : Int) ≠ - ENXIO := by
  decide

/-- The ID assembled by `detect` from `hwWithId id` is `id` itself, for
16-bit `id`. -/
theorem devid_hwWithId (id : Nat) (hid : id < 65536) : devid (hwWithId id) = id := by
  have hs : id >>> 8 = id / 256 := by
    rw [Nat.shiftRight_eq_div_pow]
  have h1 : (id >>> 8) % 256 = id >>> 8 := Nat.mod_eq_of_lt (by rw [hs]; omega)
  have h2 : (id &&& 255) % 256 = id &&& 255 := by
    rw [show (255 : Nat) = 2 ^ 8 - 1 by norm_num, Nat.and_pow_two_sub_one_eq_mod]
    exact Nat.mod_eq_of_lt (Nat.mod_lt _ (by norm_num))
  unfold devid hwWithId
  norm_num [SIO_REG_DEVID]
  rw [h1, h2, byte_recompose]

/-- Claim C5 (amended): `nct6795d_led_detect` masks the 16-bit device ID with
0xfff0, so the full ranges 0xd350–0xd35f and 0xd450–0xd45f classify as
variants A (NCT6795D, 0) and B (NCT6797D, 1) respectively, and every other
16-bit ID yields DeviceNotFound (`- ENXIO`).  The older `nct6795_led_detect`
masks with 0xfff8 and accepts exactly 0xd350–0xd357, with no variant B. -/
theorem detect_classification (id : Nat) (hid : id < 65536) :
    ((0xd350 ≤ id ∧ id ≤ 0xd35f) → (nct6795d_led_detect (hwWithId id)).1 = 0) ∧
    ((0xd450 ≤ id ∧ id ≤ 0xd45f) → (nct6795d_led_detect (hwWithId id)).1 = 1) ∧
    (¬ (0xd350 ≤ id ∧ id ≤ 0xd35f) → ¬ (0xd450 ≤ id ∧ id ≤ 0xd45f) →
      (nct6795d_led_detect (hwWithId id)).1 = - ENXIO) ∧
    ((0xd350 ≤ id ∧ id ≤ 0xd357) → (nct6795_led_detect (hwWithId id)).1 = 0) ∧
    (¬ (0xd350 ≤ id ∧ id ≤ 0xd357) → (nct6795_led_detect (hwWithId id)).1 = - ENXIO) := by
  have hdev : devid (hwWithId id) = id := devid_hwWithId id hid
  have hfst : (nct6795d_led_detect (hwWithId id)).1 = classify id := by
    rw [detect_fst _ rfl, hdev]
  have hofst : (nct6795_led_detect (hwWithId id)).1 =
      (if id &&& 0xfff8 = 0xd350 then 0 else - ENXIO) := by
    rw [old_detect_fst _ rfl, hdev]
  refine ⟨?_, ?_, ?_, ?_, ?_⟩
  · intro hr
    rw [hfst]
    unfold classify
    rw [if_pos ((mask_d350_iff id hid).2 hr)]
  · intro hr
    rw [hfst]
    unfold classify
    have hne : ¬ id &&& 0xfff0 = 0xd350 := by
      intro hcon
      have hx := (mask_d350_iff id hid).1 hcon
      omega
    rw [if_neg hne, if_pos ((mask_d450_iff id hid).2 hr)]
  · intro hn1 hn2
    rw [hfst]
    unfold classify
    rw [if_neg (fun hcon => hn1 ((mask_d350_iff id hid).1 hcon)),
      if_neg (fun hcon => hn2 ((mask_d450_iff id hid).1 hcon))]
  · intro hr
    rw [hofst, if_pos ((mask_d350w_iff id hid).2 hr)]
  · intro hn
    rw [hofst, if_neg (fun hcon => hn ((mask_d350w_iff id hid).1 hcon))]

/-- Witness for the amended C5: ID 0xd351 is accepted as variant A by both
drivers. -/
theorem detect_classification_witness :
    (0xd351 : Nat) < 65536 ∧ (nct6795d_led_detect (hwWithId 0xd351)).1 = 0 ∧
    (nct6795_led_detect (hwWithId 0xd351)).1 = 0 :=
  ⟨by decide, (detect_classification 0xd351 (by decide)).1 ⟨by decide, by decide⟩,
   (detect_classification 0xd351 (by decide)).2.2.2.1 ⟨by decide, by decide⟩⟩

/-- Claim C6: if `enter` fails with Busy, each enclosing operation returns
`-EBUSY` immediately with the hardware state — including the event trace, and
hence the set of register writes — completely unchanged. -/
theorem busy_aborts (led : nct6795d_led) (s : Hw) (hbusy : s.busy = true) :
    nct6795d_led_detect s = (-EBUSY, s) ∧
    nct6795d_led_setup s = (-EBUSY, s) ∧
    nct6795d_led_commit led s = (-EBUSY, s) ∧
    opDelta nct6795d_led_detect s = [] ∧
    opDelta nct6795d_led_setup s = [] ∧
    opDelta (nct6795d_led_commit led) s = [] :=
  ⟨detect_busy_eq s hbusy, setup_busy_eq s hbusy, commit_busy_eq led s hbusy,
   opDelta_of_fix _ _ _ (detect_busy_eq s hbusy), opDelta_of_fix _ _ _ (setup_busy_eq s hbusy),
   opDelta_of_fix _ _ _ (commit_busy_eq led s hbusy)⟩

/-- Witness for C6 on a concrete busy state. -/
theorem busy_aborts_witness :
    hwBusy.busy = true ∧ nct6795d_led_detect hwBusy = (-EBUSY, hwBusy) ∧
    nct6795d_led_setup hwBusy = (-EBUSY, hwBusy) ∧
    nct6795d_led_commit led0 hwBusy = (-EBUSY, hwBusy) ∧
    opDelta nct6795d_led_setup hwBusy = [] :=
  ⟨rfl, (busy_aborts led0 hwBusy rfl).1, (busy_aborts led0 hwBusy rfl).2.1,
   (busy_aborts led0 hwBusy rfl).2.2.1, (busy_aborts led0 hwBusy rfl).2.2.2.2.1⟩

/-- Claim C7: in every execution of `detect`, `setup` and `commit`, a failed
`enter` produces no events at all, and a successful `enter` produces a
well-bracketed session: exactly one `enter` and one `exit`, with the `enter`
first and the `exit` last, on every return path. -/
theorem session_balanced (led : nct6795d_led) (s : Hw) :
    (s.busy = true →
      opDelta nct6795d_led_detect s = [] ∧ opDelta nct6795d_led_setup s = [] ∧
      opDelta (nct6795d_led_commit led) s = []) ∧
    (s.busy = false →
      sessionShape (opDelta nct6795d_led_detect s) ∧
      sessionShape (opDelta nct6795d_led_setup s) ∧
      sessionShape (opDelta (nct6795d_led_commit led) s)) :=
  ⟨fun hb =>
    ⟨opDelta_of_fix _ _ _ (detect_busy_eq s hb), opDelta_of_fix _ _ _ (setup_busy_eq s hb),
     opDelta_of_fix _ _ _ (commit_busy_eq led s hb)⟩,
   fun hb => ⟨detect_shape s hb, setup_shape s hb, commit_shape led s hb⟩⟩

/-- Witness for C7 on a concrete free-bus state. -/
theorem session_balanced_witness :
    sessionShape (opDelta nct6795d_led_detect hw0) ∧
    sessionShape (opDelta nct6795d_led_setup hw0) ∧
    sessionShape (opDelta (nct6795d_led_commit led0) hw0) :=
  (session_balanced led0 hw0).2 rfl

/-- The internal `int ret` of `detect` is one of the two chip codes or one of
the two negative error codes. -/
theorem detect_ret_cases (s : Hw) :
    (nct6795d_led_detect s).1 = 0 ∨ (nct6795d_led_detect s).1 = 1 ∨
    (nct6795d_led_detect s).1 = -EBUSY ∨ (nct6795d_led_detect s).1 = - ENXIO := by
  by_cases hb : s.busy
  · rw [detect_busy_eq s hb]
    exact Or.inr (Or.inr (Or.inl rfl))
  · have hb' : s.busy = false := by simpa using hb
    rw [detect_fst s hb']
    unfold classify
    by_cases hm1 : devid s &&& 0xfff0 = 0xd350
    · rw [if_pos hm1]
      exact Or.inl rfl
    · rw [if_neg hm1]
      by_cases hm2 : devid s &&& 0xfff0 = 0xd450
      · rw [if_pos hm2]
        exact Or.inr (Or.inl rfl)
      · rw [if_neg hm2]
        exact Or.inr (Or.inr (Or.inr rfl))

/-- Claim C8 (code bug): the probe loop's `detected_chip >= 0` test compares
the unsigned `enum nct679x_chip` value with 0 and is therefore always true,
so the loop stops at the first candidate port whatever `detect` reported
there: failed candidates are never skipped, the second port 0x2e is never
probed, and the NotFound branch is unreachable.  At the failing input — no
chip present, both ID bytes reading 0 — `detect`'s internal result is
`-ENXIO`, yet init stops at port 0x4e "successfully" with the wrapped chip
value 4294967290. -/
theorem init_probe_bug :
    (∀ hw : Nat → Hw,
      nct6795d_led_init hw = ([0x4e], some (0x4e, nct6795d_led_detect_enum (hw 0x4e)))) ∧
    nct6795d_led_init (fun _ => hwWithId 0) = ([0x4e], some (0x4e, 4294967290)) ∧
    (nct6795d_led_detect (hwWithId 0)).1 = - ENXIO ∧
    io_bases = [0x4e, 0x2e] := by
  refine ⟨fun hw => ?_, by decide, by decide, rfl⟩
  simp [nct6795d_led_init, io_bases, detect_loop, Nat.zero_le]

/-- Claim C10 (code bug): `nct6795d_led_detect`'s declared return type
`enum nct679x_chip` is unsigned, so no caller ever sees a strictly negative
result: the internal `-EBUSY` and `-ENXIO` wrap to 4294967280 and
4294967290, every returned value — success or failure — is one of
{0, 1, 4294967280, 4294967290}, all nonnegative, and the init loop's
`detected_chip >= 0` test cannot distinguish success from failure.  Failing
inputs: a busy port returns 4294967280, an absent chip returns
4294967290. -/
theorem detect_enum_never_negative (s : Hw) :
    (nct6795d_led_detect_enum s = 0 ∨ nct6795d_led_detect_enum s = 1 ∨
     nct6795d_led_detect_enum s = 4294967280 ∨ nct6795d_led_detect_enum s = 4294967290) ∧
    0 ≤ nct6795d_led_detect_enum s ∧
    nct6795d_led_detect_enum hwBusy = 4294967280 ∧
    (nct6795d_led_detect hwBusy).1 = -EBUSY ∧
    nct6795d_led_detect_enum (hwWithId 0) = 4294967290 ∧
    (nct6795d_led_detect (hwWithId 0)).1 = - ENXIO := by
  refine ⟨?_, Nat.zero_le _, by decide, by decide, by decide, by decide⟩
  rcases detect_ret_cases s with h | h | h | h <;>
  · unfold nct6795d_led_detect_enum enum_nct679x_of_int
    rw [h]
    decide

end Nct6795
